import Mathlib

/-!
Verification development for the bulk picture watermark utility.

The repository is a Python batch tool (`bulk_picture_watermark.py`) that
pairs spreadsheet rows with image files, synthesizes capture timestamps,
draws watermark text lines, and writes EXIF geotags.  This file gives a
shallow embedding of its data model and operations: pure functions become
Lean functions over `ℚ`, `ℕ`, `ℤ`, `String` and `List`; the mutated
running clock becomes explicit state passing; fallible library calls
(image open, font load, file save) become `Except`-valued inputs; Python
dictionaries become functions `ℕ → Option _`.  Theorems about the claims
of the specification follow the definitions.
-/

/-- Python `int(x)` truncates toward zero: floor for nonnegative inputs,
ceiling for negative ones. -/
def pyInt (x : ℚ) : ℤ := if 0 ≤ x then ⌊x⌋ else ⌈x⌉

/-- Embedding of `to_deg(value, ref_positive, ref_negative)`
(`bulk_picture_watermark.py` lines 29–36): convert decimal degrees to the
EXIF rational triple `((d,1),(m,1),(s,100))` together with the hemisphere
reference chosen by the sign test `value >= 0`. -/
def to_deg (value : ℚ) (ref_positive ref_negative : String) :
    ((ℤ × ℤ) × (ℤ × ℤ) × (ℤ × ℤ)) × String :=
  let ref := if 0 ≤ value then ref_positive else ref_negative
  let abs_val := |value|
  let d : ℤ := pyInt abs_val
  let m : ℤ := pyInt ((abs_val - d) * 60)
  let s : ℤ := pyInt ((abs_val - d - (m : ℚ) / 60) * 3600 * 100)
  (((d, 1), (m, 1), (s, 100)), ref)

lemma pyInt_of_nonneg {x : ℚ} (hx : 0 ≤ x) : pyInt x = ⌊x⌋ := by
  simp [pyInt, hx]

lemma pyInt_le {x : ℚ} (hx : 0 ≤ x) : (pyInt x : ℚ) ≤ x := by
  rw [pyInt_of_nonneg hx]; exact Int.floor_le x

lemma lt_pyInt_add_one {x : ℚ} (hx : 0 ≤ x) : x < (pyInt x : ℚ) + 1 := by
  rw [pyInt_of_nonneg hx]; exact Int.lt_floor_add_one x

/-- C1: for every coordinate value with `|v| < 180`, the decomposition
returned by `to_deg` is truncating: `d + m/60 + s/100/3600 ≤ |v|` and
`|v| < d + m/60 + (s+1)/100/3600` (within one truncation unit of the
hundredth-of-a-second place), the denominators are `(1,1,100)`, and the
returned hemisphere reference is the positive reference exactly when
`v ≥ 0`. -/
theorem to_deg_truncating_decomposition (v : ℚ) (refP refN : String)
    (_hv : |v| < 180) :
    (((to_deg v refP refN).1.1.1 : ℚ) + ((to_deg v refP refN).1.2.1.1 : ℚ) / 60 +
        ((to_deg v refP refN).1.2.2.1 : ℚ) / 100 / 3600 ≤ |v| ∧
      |v| < ((to_deg v refP refN).1.1.1 : ℚ) + ((to_deg v refP refN).1.2.1.1 : ℚ) / 60 +
        (((to_deg v refP refN).1.2.2.1 : ℚ) + 1) / 100 / 3600) ∧
    (to_deg v refP refN).2 = (if 0 ≤ v then refP else refN) ∧
    (to_deg v refP refN).1.1.2 = 1 ∧ (to_deg v refP refN).1.2.1.2 = 1 ∧
    (to_deg v refP refN).1.2.2.2 = 100 := by
  have ha : (0 : ℚ) ≤ |v| := abs_nonneg v
  have ed : (to_deg v refP refN).1.1.1 = pyInt |v| := rfl
  have em : (to_deg v refP refN).1.2.1.1 = pyInt ((|v| - (pyInt |v| : ℚ)) * 60) := rfl
  have es : (to_deg v refP refN).1.2.2.1 =
      pyInt ((|v| - (pyInt |v| : ℚ) -
        (pyInt ((|v| - (pyInt |v| : ℚ)) * 60) : ℚ) / 60) * 3600 * 100) := rfl
  have hd1 : ((pyInt |v| : ℤ) : ℚ) ≤ |v| := pyInt_le ha
  have hfrac : (0 : ℚ) ≤ (|v| - (pyInt |v| : ℚ)) * 60 :=
    mul_nonneg (by linarith) (by norm_num)
  have hm1 : ((pyInt ((|v| - (pyInt |v| : ℚ)) * 60) : ℤ) : ℚ) ≤
      (|v| - (pyInt |v| : ℚ)) * 60 := pyInt_le hfrac
  have hrem : (0 : ℚ) ≤ (|v| - (pyInt |v| : ℚ) -
      (pyInt ((|v| - (pyInt |v| : ℚ)) * 60) : ℚ) / 60) * 3600 * 100 := by
    have : (pyInt ((|v| - (pyInt |v| : ℚ)) * 60) : ℚ) / 60 ≤ |v| - (pyInt |v| : ℚ) := by
      linarith
    have h0 : (0 : ℚ) ≤ |v| - (pyInt |v| : ℚ) -
        (pyInt ((|v| - (pyInt |v| : ℚ)) * 60) : ℚ) / 60 := by linarith
    have := mul_nonneg h0 (by norm_num : (0 : ℚ) ≤ 3600)
    linarith
  have hs1 : ((pyInt ((|v| - (pyInt |v| : ℚ) -
      (pyInt ((|v| - (pyInt |v| : ℚ)) * 60) : ℚ) / 60) * 3600 * 100) : ℤ) : ℚ) ≤
      (|v| - (pyInt |v| : ℚ) -
        (pyInt ((|v| - (pyInt |v| : ℚ)) * 60) : ℚ) / 60) * 3600 * 100 := pyInt_le hrem
  have hs2 : (|v| - (pyInt |v| : ℚ) -
      (pyInt ((|v| - (pyInt |v| : ℚ)) * 60) : ℚ) / 60) * 3600 * 100 <
      ((pyInt ((|v| - (pyInt |v| : ℚ) -
        (pyInt ((|v| - (pyInt |v| : ℚ)) * 60) : ℚ) / 60) * 3600 * 100) : ℤ) : ℚ) + 1 :=
    lt_pyInt_add_one hrem
  refine ⟨⟨?_, ?_⟩, rfl, rfl, rfl, rfl⟩
  · rw [ed, em, es]
    linarith
  · rw [ed, em, es]
    linarith

/-- C1 witness: instantiate the truncation theorem at the concrete
coordinate value `7/2` (i.e. `3.5` degrees, giving `d = 3, m = 30, s = 0`). -/
theorem to_deg_truncating_decomposition_witness :
    |(7 / 2 : ℚ)| < 180 ∧
    ((((to_deg (7 / 2) "N" "S").1.1.1 : ℚ) + ((to_deg (7 / 2) "N" "S").1.2.1.1 : ℚ) / 60 +
        ((to_deg (7 / 2) "N" "S").1.2.2.1 : ℚ) / 100 / 3600 ≤ |(7 / 2 : ℚ)| ∧
      |(7 / 2 : ℚ)| < ((to_deg (7 / 2) "N" "S").1.1.1 : ℚ) +
        ((to_deg (7 / 2) "N" "S").1.2.1.1 : ℚ) / 60 +
        (((to_deg (7 / 2) "N" "S").1.2.2.1 : ℚ) + 1) / 100 / 3600) ∧
    (to_deg (7 / 2) "N" "S").2 = (if 0 ≤ (7 / 2 : ℚ) then "N" else "S") ∧
    (to_deg (7 / 2) "N" "S").1.1.2 = 1 ∧ (to_deg (7 / 2) "N" "S").1.2.1.2 = 1 ∧
    (to_deg (7 / 2) "N" "S").1.2.2.2 = 100) :=
  ⟨by rw [abs_of_nonneg (by norm_num : (0 : ℚ) ≤ 7 / 2)]; norm_num,
    to_deg_truncating_decomposition (7 / 2) "N" "S"
      (by rw [abs_of_nonneg (by norm_num : (0 : ℚ) ≤ 7 / 2)]; norm_num)⟩

/-! ### Timestamp synthesizer (`process_images_csv`, lines 107–150)

The running `current_datetime` is modelled as whole seconds since
1970-01-01 00:00:00 plus a microsecond component; `pd.Timedelta`
addition of minutes and seconds adds whole seconds, and
`.replace(hour=…, minute=…, second=…, microsecond=0)` keeps the calendar
day and rebuilds the time-of-day fields. -/

/-- Working-hour start, `WORK_START = 8` in `process_images_csv`. -/
def WORK_START : ℕ := 8

/-- Working-hour end, `WORK_END = 16` in `process_images_csv`. -/
def WORK_END : ℕ := 16

/-- A datetime value: whole seconds since the epoch and a sub-second
microsecond component. -/
structure Clock where
  secs : ℕ
  micro : ℕ

/-- Calendar day number of a seconds-since-epoch value. -/
def dayOf (t : ℕ) : ℕ := t / 86400

/-- Hour-of-day field of a seconds-since-epoch value. -/
def hourOf (t : ℕ) : ℕ := t / 3600 % 24

/-- Minute field of a seconds-since-epoch value. -/
def minuteOf (t : ℕ) : ℕ := t / 60 % 60

/-- Second field of a seconds-since-epoch value. -/
def secondOf (t : ℕ) : ℕ := t % 60

/-- `datetime.strptime("2025-07-01 08:00", "%Y-%m-%d %H:%M")`:
2025-07-01 is day 20270 since 1970-01-01; hour 8, minute 0, second 0,
microsecond 0. -/
def base_datetime : Clock := ⟨20270 * 86400 + 8 * 3600, 0⟩

/-- The pseudo-random numbers one loop iteration may consume:
`randint(8, 36)` minutes and `randint(0, 59)` seconds for the increment,
and `randint(0, 10)` / `randint(0, 59)` for the rollover branch. -/
structure Draw where
  incMin : ℕ
  incSec : ℕ
  rolloverMin : ℕ
  rolloverSec : ℕ

/-- Range constraints of the `randint` calls that produce a `Draw`. -/
def Draw.valid (d : Draw) : Prop :=
  8 ≤ d.incMin ∧ d.incMin ≤ 36 ∧ d.incSec ≤ 59 ∧
    d.rolloverMin ≤ 10 ∧ d.rolloverSec ≤ 59

instance (d : Draw) : Decidable d.valid := by unfold Draw.valid; infer_instance

/-- One loop iteration of the clock update in `process_images_csv`
(lines 136–147): add the random increment; if the resulting hour is at or
past `WORK_END`, move to the next calendar day at hour `WORK_START` with
random minute/second and zero microseconds. -/
def stepClock (c : Clock) (d : Draw) : Clock :=
  if WORK_END ≤ hourOf (c.secs + d.incMin * 60 + d.incSec) then
    ⟨dayOf (c.secs + d.incMin * 60 + d.incSec + 86400) * 86400 +
      WORK_START * 3600 + d.rolloverMin * 60 + d.rolloverSec, 0⟩
  else
    ⟨c.secs + d.incMin * 60 + d.incSec, c.micro⟩

/-- The sequence of clock values emitted by the loop: one `stepClock`
per processed row, each starting from the previous row's result. -/
def runClock : Clock → List Draw → List Clock
  | _, [] => []
  | c, d :: ds => stepClock c d :: runClock (stepClock c d) ds

/-- C2: when the increment lands the clock at or past the end-of-day hour,
the emitted timestamp is on the next calendar day, at hour `WORK_START`,
with minute equal to the `randint(0,10)` draw (hence in `[0,10]`), second
equal to the `randint(0,59)` draw (hence in `[0,59]`), and zero
microseconds. -/
theorem rollover_next_day_start (c : Clock) (d : Draw) (hd : d.valid)
    (hroll : WORK_END ≤ hourOf (c.secs + d.incMin * 60 + d.incSec)) :
    dayOf (stepClock c d).secs = dayOf (c.secs + d.incMin * 60 + d.incSec) + 1 ∧
    hourOf (stepClock c d).secs = WORK_START ∧
    minuteOf (stepClock c d).secs = d.rolloverMin ∧
    minuteOf (stepClock c d).secs ≤ 10 ∧
    secondOf (stepClock c d).secs = d.rolloverSec ∧
    secondOf (stepClock c d).secs ≤ 59 ∧
    (stepClock c d).micro = 0 := by
  obtain ⟨h1, h2, h3, h4, h5⟩ := hd
  simp only [stepClock, if_pos hroll]
  unfold dayOf hourOf minuteOf secondOf WORK_START WORK_END at *
  refine ⟨?_, ?_, ?_, ?_, ?_, ?_, ?_⟩ <;> first | trivial | omega

/-- C2 witness: rollover at 15:59:00 + 8 min 30 s lands at 16:07:30 on day
20270, and the emitted timestamp is day 20271, 08:05:07. -/
theorem rollover_next_day_start_witness :
    Draw.valid ⟨8, 30, 5, 7⟩ ∧
    WORK_END ≤ hourOf ((⟨20270 * 86400 + 15 * 3600 + 59 * 60, 0⟩ : Clock).secs +
      (⟨8, 30, 5, 7⟩ : Draw).incMin * 60 + (⟨8, 30, 5, 7⟩ : Draw).incSec) ∧
    (dayOf (stepClock ⟨20270 * 86400 + 15 * 3600 + 59 * 60, 0⟩ ⟨8, 30, 5, 7⟩).secs =
      dayOf ((⟨20270 * 86400 + 15 * 3600 + 59 * 60, 0⟩ : Clock).secs +
        (⟨8, 30, 5, 7⟩ : Draw).incMin * 60 + (⟨8, 30, 5, 7⟩ : Draw).incSec) + 1 ∧
    hourOf (stepClock ⟨20270 * 86400 + 15 * 3600 + 59 * 60, 0⟩ ⟨8, 30, 5, 7⟩).secs = WORK_START ∧
    minuteOf (stepClock ⟨20270 * 86400 + 15 * 3600 + 59 * 60, 0⟩ ⟨8, 30, 5, 7⟩).secs =
      (⟨8, 30, 5, 7⟩ : Draw).rolloverMin ∧
    minuteOf (stepClock ⟨20270 * 86400 + 15 * 3600 + 59 * 60, 0⟩ ⟨8, 30, 5, 7⟩).secs ≤ 10 ∧
    secondOf (stepClock ⟨20270 * 86400 + 15 * 3600 + 59 * 60, 0⟩ ⟨8, 30, 5, 7⟩).secs =
      (⟨8, 30, 5, 7⟩ : Draw).rolloverSec ∧
    secondOf (stepClock ⟨20270 * 86400 + 15 * 3600 + 59 * 60, 0⟩ ⟨8, 30, 5, 7⟩).secs ≤ 59 ∧
    (stepClock ⟨20270 * 86400 + 15 * 3600 + 59 * 60, 0⟩ ⟨8, 30, 5, 7⟩).micro = 0) :=
  ⟨by decide, by decide,
    rollover_next_day_start ⟨20270 * 86400 + 15 * 3600 + 59 * 60, 0⟩ ⟨8, 30, 5, 7⟩
      (by decide) (by decide)⟩

lemma stepClock_secs_lt (c : Clock) (d : Draw) (hd : d.valid) :
    c.secs < (stepClock c d).secs := by
  obtain ⟨h1, h2, h3, h4, h5⟩ := hd
  rw [stepClock]
  split
  case isTrue h =>
    dsimp only
    unfold dayOf hourOf WORK_START WORK_END at *
    omega
  case isFalse h =>
    dsimp only
    omega

/-- C3: the emitted timestamps are strictly increasing — the clock trace
has exactly one entry per processed row (the state is advanced exactly
once per row), and each emitted timestamp is strictly greater than the
previous one (and than the initial state). -/
theorem timestamps_strictly_increasing (c : Clock) (ds : List Draw)
    (h : ∀ d ∈ ds, d.valid) :
    (runClock c ds).length = ds.length ∧
    List.Chain' (fun a b : Clock => a.secs < b.secs) (c :: runClock c ds) := by
  induction ds generalizing c with
  | nil => simp [runClock]
  | cons d ds ih =>
    have hd : d.valid := h d (by simp)
    have hrest : ∀ x ∈ ds, x.valid := fun x hx => h x (by simp [hx])
    obtain ⟨ihlen, ihchain⟩ := ih (stepClock c d) hrest
    refine ⟨by simpa [runClock] using ihlen, ?_⟩
    rw [runClock, List.chain'_cons]
    exact ⟨stepClock_secs_lt c d hd, ihchain⟩

/-- C3 witness: two rows of minimal valid draws from the base instant give
a two-entry, strictly increasing trace. -/
theorem timestamps_strictly_increasing_witness :
    (∀ d ∈ [(⟨8, 0, 0, 0⟩ : Draw), ⟨8, 0, 0, 0⟩], d.valid) ∧
    ((runClock base_datetime [⟨8, 0, 0, 0⟩, ⟨8, 0, 0, 0⟩]).length =
      ([(⟨8, 0, 0, 0⟩ : Draw), ⟨8, 0, 0, 0⟩] : List Draw).length ∧
    List.Chain' (fun a b : Clock => a.secs < b.secs)
      (base_datetime :: runClock base_datetime [⟨8, 0, 0, 0⟩, ⟨8, 0, 0, 0⟩])) :=
  ⟨by decide,
    timestamps_strictly_increasing base_datetime [⟨8, 0, 0, 0⟩, ⟨8, 0, 0, 0⟩] (by decide)⟩

lemma workhour_step (c : Clock) (d : Draw) (hd : d.valid)
    (h8 : WORK_START ≤ hourOf c.secs) (h16 : hourOf c.secs < WORK_END) :
    WORK_START ≤ hourOf (stepClock c d).secs ∧ hourOf (stepClock c d).secs < WORK_END := by
  obtain ⟨h1, h2, h3, h4, h5⟩ := hd
  rw [stepClock]
  split
  case isTrue h =>
    dsimp only
    unfold dayOf hourOf WORK_START WORK_END at *
    omega
  case isFalse h =>
    dsimp only
    unfold hourOf WORK_START WORK_END at *
    omega

/-- C10: every per-row advance preserves the working-hour window
`WORK_START ≤ hour < WORK_END`, and every timestamp emitted from the
configured start instant `base_datetime` (2025-07-01 08:00) lies in that
window. -/
theorem working_hour_window_invariant (ds : List Draw)
    (hds : ∀ d ∈ ds, d.valid) :
    (∀ (c : Clock) (d : Draw), d.valid →
      WORK_START ≤ hourOf c.secs → hourOf c.secs < WORK_END →
      WORK_START ≤ hourOf (stepClock c d).secs ∧
        hourOf (stepClock c d).secs < WORK_END) ∧
    ∀ x ∈ runClock base_datetime ds,
      WORK_START ≤ hourOf x.secs ∧ hourOf x.secs < WORK_END := by
  refine ⟨fun c d hd h8 h16 => workhour_step c d hd h8 h16, ?_⟩
  have aux : ∀ (ds : List Draw) (c : Clock), (∀ d ∈ ds, d.valid) →
      WORK_START ≤ hourOf c.secs → hourOf c.secs < WORK_END →
      ∀ x ∈ runClock c ds, WORK_START ≤ hourOf x.secs ∧ hourOf x.secs < WORK_END := by
    intro ds
    induction ds with
    | nil => intro c _ _ _ x hx; simp [runClock] at hx
    | cons d ds ih =>
      intro c hvalid h8 h16 x hx
      have hd : d.valid := hvalid d (by simp)
      obtain ⟨s8, s16⟩ := workhour_step c d hd h8 h16
      rw [runClock] at hx
      rcases List.mem_cons.mp hx with rfl | hx
      · exact ⟨s8, s16⟩
      · exact ih (stepClock c d) (fun y hy => hvalid y (by simp [hy])) s8 s16 x hx
  have hbase8 : WORK_START ≤ hourOf base_datetime.secs := by decide
  have hbase16 : hourOf base_datetime.secs < WORK_END := by decide
  exact aux ds base_datetime hds hbase8 hbase16

/-- C10 witness: a single valid draw from the base instant keeps the
emitted timestamp inside the working-hour window. -/
theorem working_hour_window_invariant_witness :
    (∀ d ∈ [(⟨8, 0, 0, 0⟩ : Draw)], d.valid) ∧
    ((∀ (c : Clock) (d : Draw), d.valid →
      WORK_START ≤ hourOf c.secs → hourOf c.secs < WORK_END →
      WORK_START ≤ hourOf (stepClock c d).secs ∧
        hourOf (stepClock c d).secs < WORK_END) ∧
    ∀ x ∈ runClock base_datetime [(⟨8, 0, 0, 0⟩ : Draw)],
      WORK_START ≤ hourOf x.secs ∧ hourOf x.secs < WORK_END) :=
  ⟨by decide, working_hour_window_invariant [⟨8, 0, 0, 0⟩] (by decide)⟩

/-! ### Table rows, image enumeration and positional pairing
(`process_images_csv`, lines 116–131) -/

/-- Drop leading whitespace characters from a character list. -/
def dropLeadingWS : List Char → List Char
  | [] => []
  | c :: cs => if c.isWhitespace then dropLeadingWS cs else c :: cs

/-- Python `str.strip()`: remove surrounding whitespace.  Implemented on
the character list so that it evaluates by kernel reduction. -/
def strip (s : String) : String :=
  ⟨(dropLeadingWS (dropLeadingWS s.data).reverse).reverse⟩

/-- The extension filter `f.lower().endswith((".jpg", ".jpeg"))`.
Lower-casing maps each code point; the suffix test runs on the character
list. -/
def hasImageExt (f : String) : Bool :=
  List.isSuffixOf ".jpg".data (f.data.map Char.toLower) ||
    List.isSuffixOf ".jpeg".data (f.data.map Char.toLower)

/-- Code-point lexicographic order on character lists, the order Python
uses to compare strings. -/
def charListLE : List Char → List Char → Bool
  | [], _ => true
  | _ :: _, [] => false
  | a :: as, b :: bs => if a < b then true else if b < a then false else charListLE as bs

/-- Insert a name into an already name-sorted list. -/
def insertSorted (x : String) : List String → List String
  | [] => [x]
  | y :: ys => if charListLE x.data y.data then x :: y :: ys else y :: insertSorted x ys

/-- Python `sorted` on file names, as an insertion sort. -/
def sortNames : List String → List String
  | [] => []
  | x :: xs => insertSorted x (sortNames xs)

/-- `sorted([f for f in os.listdir(INPUT_DIR) if f.lower().endswith(...)])`:
the recognized image files of the source directory, sorted by name. -/
def imageFiles (files : List String) : List String :=
  sortNames (files.filter hasImageExt)

/-- One table row: the `File Name` cell, the `LONGLAT` cell, and the full
list of cells in column order (a `none` cell is a pandas `NaN`). -/
structure Row where
  fileName : Option String
  longlat : Option String
  cells : List (Option String)

/-- `df.dropna(subset=["File Name", "LONGLAT"])`: keep, in order, the rows
whose destination name and coordinate cells are both present. -/
def surviving (rows : List Row) : List Row :=
  rows.filter (fun r => r.fileName.isSome && r.longlat.isSome)

/-- The row/image association of the main loop: after the pre-check
(`len(image_files) > len(df)` aborts), `enumerate(image_files)` pairs the
i-th sorted image with `df.iloc[i]`. -/
def pairing (files : List String) (rows : List Row) :
    Option (List (String × Row)) :=
  if (surviving rows).length < (imageFiles files).length then none
  else some ((imageFiles files).zip (surviving rows))

/-- C4: dropping rows that miss the destination name or the coordinate
cell preserves the order of the survivors (a sublist of the input, whose
members are exactly the rows with both cells present), and when the
pre-check passes, the i-th name-sorted recognized image file is paired
with the i-th surviving row, for every `i` below the number of image
files. -/
theorem positional_pairing (files : List String) (rows : List Row)
    (h : (imageFiles files).length ≤ (surviving rows).length) :
    (surviving rows).Sublist rows ∧
    (∀ r : Row, r ∈ surviving rows ↔
      r ∈ rows ∧ r.fileName.isSome ∧ r.longlat.isSome) ∧
    ∃ ps, pairing files rows = some ps ∧
      ps.length = (imageFiles files).length ∧
      ∀ i : ℕ, i < (imageFiles files).length →
        ∃ f r, (imageFiles files)[i]? = some f ∧
          (surviving rows)[i]? = some r ∧ ps[i]? = some (f, r) := by
  refine ⟨List.filter_sublist rows, ?_, ?_⟩
  · intro r
    simp [surviving, List.mem_filter, Bool.and_eq_true, and_assoc]
  · refine ⟨(imageFiles files).zip (surviving rows), ?_, ?_, ?_⟩
    · rw [pairing, if_neg (by omega)]
    · rw [List.length_zip]; omega
    · intro i hi
      have hi2 : i < (surviving rows).length := by omega
      refine ⟨(imageFiles files)[i], (surviving rows)[i], ?_, ?_, ?_⟩
      · exact List.getElem?_eq_getElem hi
      · exact List.getElem?_eq_getElem hi2
      · rw [List.getElem?_eq_getElem (by rw [List.length_zip]; omega)]
        congr 1
        exact List.getElem_zip

/-- C4 witness: two image files (one rejected by the extension filter) and
two rows (one dropped for a missing coordinate cell) pair the surviving
image with the surviving row. -/
theorem positional_pairing_witness :
    (imageFiles ["b.txt", "a.jpg"]).length ≤
      (surviving [⟨some "x", none, []⟩, ⟨some "y", some "1 2", []⟩]).length ∧
    ((surviving [⟨some "x", none, []⟩, ⟨some "y", some "1 2", []⟩]).Sublist
      [⟨some "x", none, []⟩, ⟨some "y", some "1 2", []⟩] ∧
    (∀ r : Row, r ∈ surviving [⟨some "x", none, []⟩, ⟨some "y", some "1 2", []⟩] ↔
      r ∈ [⟨some "x", none, []⟩, ⟨some "y", some "1 2", []⟩] ∧
        r.fileName.isSome ∧ r.longlat.isSome) ∧
    ∃ ps, pairing ["b.txt", "a.jpg"] [⟨some "x", none, []⟩, ⟨some "y", some "1 2", []⟩] = some ps ∧
      ps.length = (imageFiles ["b.txt", "a.jpg"]).length ∧
      ∀ i : ℕ, i < (imageFiles ["b.txt", "a.jpg"]).length →
        ∃ f r, (imageFiles ["b.txt", "a.jpg"])[i]? = some f ∧
          (surviving [⟨some "x", none, []⟩, ⟨some "y", some "1 2", []⟩])[i]? = some r ∧
          ps[i]? = some (f, r)) :=
  ⟨by decide, positional_pairing ["b.txt", "a.jpg"]
    [⟨some "x", none, []⟩, ⟨some "y", some "1 2", []⟩] (by decide)⟩

/-! ### Watermark line assembly (`process_images_csv`, lines 153–157) -/

/-- `WATERMARK_COLUMN_RANGE = (5, 8)`: the descriptive columns. -/
def WATERMARK_COLUMN_RANGE : ℕ × ℕ := (5, 8)

/-- `[str(row[col]).strip() for col in df.columns[5:8] if pd.notna(row[col])]`:
the stripped values of the present descriptive cells, in column order. -/
def dynamic_lines (cells : List (Option String)) : List String :=
  ((cells.drop WATERMARK_COLUMN_RANGE.1).take
      (WATERMARK_COLUMN_RANGE.2 - WATERMARK_COLUMN_RANGE.1)).filterMap
    (fun c => c.map strip)

/-- `watermark_lines = [display_datetime, longlat] + dynamic_lines`. -/
def watermark_lines (display_datetime longlat : String)
    (cells : List (Option String)) : List String :=
  [display_datetime, longlat] ++ dynamic_lines cells

/-- Specification-side description of the watermark line list: the
display-formatted timestamp first, then the raw coordinate string, then
each present (non-null) descriptive field, stripped, in table-column
order — nothing else. -/
def specWatermarkLines (ts coord : String)
    (descFields : List (Option String)) : List String :=
  ts :: coord :: descFields.filterMap (fun c => c.map strip)

/-- C5: the assembled watermark line list is exactly the specification's
list for the descriptive columns 5–7: the display timestamp at index 0,
the raw coordinate string at index 1, and from index 2 on the present
descriptive fields in column order; no other lines. -/
theorem watermark_line_order (ts ll : String) (cells : List (Option String)) :
    watermark_lines ts ll cells =
      specWatermarkLines ts ll ((cells.drop 5).take 3) ∧
    (watermark_lines ts ll cells)[0]? = some ts ∧
    (watermark_lines ts ll cells)[1]? = some ll ∧
    (watermark_lines ts ll cells).drop 2 =
      ((cells.drop 5).take 3).filterMap (fun c => c.map strip) := by
  refine ⟨rfl, ?_, ?_, rfl⟩ <;> simp [watermark_lines]

/-! ### Coordinate parsing (`parse_lat_lon`, lines 56–61)

Python string methods are modelled on the character list, which matches
Python's code-point view of `str`. -/

/-- `longlat_str.replace("°", "")`: drop every degree glyph. -/
def removeDegree (s : String) : String :=
  ⟨s.data.filter (fun c => c ≠ '°')⟩

/-- Worker for Python `str.split()` with no argument: split on runs of
whitespace, producing no empty tokens.  The first argument is the current
token accumulated in reverse. -/
def splitWSGo : List Char → List Char → List String
  | cur, [] => if cur.isEmpty then [] else [⟨cur.reverse⟩]
  | cur, c :: cs =>
    if c.isWhitespace then
      if cur.isEmpty then splitWSGo [] cs
      else ⟨cur.reverse⟩ :: splitWSGo [] cs
    else splitWSGo (c :: cur) cs

/-- Python `str.split()` with no argument. -/
def pySplit (s : String) : List String := splitWSGo [] s.data

/-- Value of a digit run (most significant first). -/
def digitsToNat (l : List Char) : ℕ :=
  l.foldl (fun n c => n * 10 + (c.toNat - 48)) 0

/-- Split a character list on a separator character. -/
def splitOnChar (sep : Char) : List Char → List (List Char)
  | [] => [[]]
  | c :: cs =>
    if c = sep then [] :: splitOnChar sep cs
    else
      match splitOnChar sep cs with
      | [] => [[c]]
      | g :: gs => (c :: g) :: gs

/-- Mantissa of a decimal literal: digits with at most one point and at
least one digit overall. -/
def parseMantissa (l : List Char) : Option ℚ :=
  match splitOnChar '.' l with
  | [i] => if i.isEmpty || !i.all Char.isDigit then none else some (digitsToNat i)
  | [i, f] =>
      if i.isEmpty && f.isEmpty then none
      else if i.all Char.isDigit && f.all Char.isDigit then
        some ((digitsToNat i : ℚ) + (digitsToNat f : ℚ) / (10 : ℚ) ^ f.length)
      else none
  | _ => none

/-- Exponent of a decimal literal: an optional sign and a digit run. -/
def parseExp (l : List Char) : Option ℤ :=
  match l with
  | '+' :: r => if r.isEmpty || !r.all Char.isDigit then none else some (digitsToNat r : ℤ)
  | '-' :: r => if r.isEmpty || !r.all Char.isDigit then none else some (-(digitsToNat r : ℤ))
  | r => if r.isEmpty || !r.all Char.isDigit then none else some (digitsToNat r : ℤ)

/-- Model of the Python builtin `float` on decimal literals: optional
sign, digits with an optional decimal point, optional `e`/`E` exponent.
(Special spellings such as `inf`/`nan` and digit underscores are outside
the model.) -/
def parseFloat (s : String) : Option ℚ :=
  let sgn : ℚ := match s.data with
    | '-' :: _ => -1
    | _ => 1
  let body : List Char := match s.data with
    | '+' :: r => r
    | '-' :: r => r
    | r => r
  match splitOnChar 'e' (body.map Char.toLower) with
  | [m] => (parseMantissa m).map (fun q => sgn * q)
  | [m, ex] =>
      match parseMantissa m, parseExp ex with
      | some mv, some ev => some (sgn * mv * (10 : ℚ) ^ ev)
      | _, _ => none
  | _ => none

/-- Embedding of `parse_lat_lon(longlat_str)` (lines 56–61): remove degree
glyphs, split on whitespace, and require exactly two float-parseable
tokens; any failure (wrong token count or unparseable token) is caught and
yields the absent pair. -/
def parse_lat_lon (longlat_str : String) : Option (ℚ × ℚ) :=
  match pySplit (removeDegree longlat_str) with
  | [a, b] =>
      match parseFloat a, parseFloat b with
      | some lat, some lon => some (lat, lon)
      | _, _ => none
  | _ => none

/-! ### EXIF metadata (`update_exif_metadata`, lines 63–76, and the
`piexif.load` / empty-block choice of `add_watermark`, lines 81–82)

An IFD dictionary is a function from tag number to optional value. -/

/-- A stored EXIF value: an encoded byte string or a rational triple. -/
inductive ExifVal where
  | bytes (s : String)
  | rat3 (v : (ℤ × ℤ) × (ℤ × ℤ) × (ℤ × ℤ))
  deriving DecidableEq

/-- An EXIF block: the `0th`, `Exif`, `GPS`, `1st` and `Interop` IFDs. -/
structure ExifData where
  zeroth : ℕ → Option ExifVal
  exifIFD : ℕ → Option ExifVal
  gps : ℕ → Option ExifVal
  firstIFD : ℕ → Option ExifVal
  interop : ℕ → Option ExifVal

/-- `piexif.ImageIFD.DateTime`. -/
def ImageIFD_DateTime : ℕ := 306

/-- `piexif.ExifIFD.DateTimeOriginal`. -/
def ExifIFD_DateTimeOriginal : ℕ := 36867

/-- `piexif.ExifIFD.DateTimeDigitized`. -/
def ExifIFD_DateTimeDigitized : ℕ := 36868

/-- `piexif.GPSIFD.GPSLatitudeRef`. -/
def GPSIFD_GPSLatitudeRef : ℕ := 1

/-- `piexif.GPSIFD.GPSLatitude`. -/
def GPSIFD_GPSLatitude : ℕ := 2

/-- `piexif.GPSIFD.GPSLongitudeRef`. -/
def GPSIFD_GPSLongitudeRef : ℕ := 3

/-- `piexif.GPSIFD.GPSLongitude`. -/
def GPSIFD_GPSLongitude : ℕ := 4

/-- Embedding of `update_exif_metadata(exif_data, date_str, lat, lon)`:
write the three date/time tags, and replace the GPS IFD with the four
geotag entries built by `to_deg`.  All other entries of `0th` and `Exif`,
and the whole `1st` and `Interop` IFDs, are left as they were. -/
def update_exif_metadata (e : ExifData) (date_str : String) (lat lon : ℚ) :
    ExifData :=
  let encoded_date := ExifVal.bytes date_str
  let latPair := to_deg lat "N" "S"
  let lonPair := to_deg lon "E" "W"
  { e with
    zeroth := fun t =>
      if t = ImageIFD_DateTime then some encoded_date else e.zeroth t,
    exifIFD := fun t =>
      if t = ExifIFD_DateTimeOriginal then some encoded_date
      else if t = ExifIFD_DateTimeDigitized then some encoded_date
      else e.exifIFD t,
    gps := fun t =>
      if t = GPSIFD_GPSLatitudeRef then some (ExifVal.bytes latPair.2)
      else if t = GPSIFD_GPSLatitude then some (ExifVal.rat3 latPair.1)
      else if t = GPSIFD_GPSLongitudeRef then some (ExifVal.bytes lonPair.2)
      else if t = GPSIFD_GPSLongitude then some (ExifVal.rat3 lonPair.1)
      else none }

/-- The literal `{"0th": {}, "Exif": {}, "GPS": {}}` used when the source
image carries no EXIF bytes. -/
def emptyExif : ExifData :=
  ⟨fun _ => none, fun _ => none, fun _ => none, fun _ => none, fun _ => none⟩

/-- `piexif.load(exif_bytes) if exif_bytes else {...}`: the pre-existing
block when there is one, the empty block otherwise. -/
def loadExif : Option ExifData → ExifData
  | some e => e
  | none => emptyExif

/-- Lines 84–86 of `add_watermark`: geotag only when both coordinates
parsed. -/
def geotagged (e : ExifData) (exif_datetime longlat_str : String) : ExifData :=
  match parse_lat_lon longlat_str with
  | some (lat, lon) => update_exif_metadata e exif_datetime lat lon
  | none => e

/-- C8: merging the synthesized timestamp and geotag into a pre-existing
EXIF block leaves every field outside the three date/time tags and the
GPS IFD untouched — the rest of `0th`, the rest of `Exif`, and all of
`1st` and `Interop` are preserved — and when no block exists an empty
block is used as the base. -/
theorem exif_merge_preserves_other_fields (e : ExifData) (date_str : String)
    (lat lon : ℚ) (tag : ℕ)
    (h0 : tag ≠ ImageIFD_DateTime)
    (h1 : tag ≠ ExifIFD_DateTimeOriginal)
    (h2 : tag ≠ ExifIFD_DateTimeDigitized) :
    (update_exif_metadata e date_str lat lon).zeroth tag = e.zeroth tag ∧
    (update_exif_metadata e date_str lat lon).exifIFD tag = e.exifIFD tag ∧
    (update_exif_metadata e date_str lat lon).firstIFD tag = e.firstIFD tag ∧
    (update_exif_metadata e date_str lat lon).interop tag = e.interop tag ∧
    loadExif none = emptyExif ∧ loadExif (some e) = e := by
  refine ⟨?_, ?_, rfl, rfl, rfl, rfl⟩ <;>
    simp [update_exif_metadata, h0, h1, h2]

/-- C8 witness: a pre-existing block with a description tag (270) keeps it
unchanged through the merge. -/
theorem exif_merge_preserves_other_fields_witness :
    (270 ≠ ImageIFD_DateTime ∧ 270 ≠ ExifIFD_DateTimeOriginal ∧
      270 ≠ ExifIFD_DateTimeDigitized) ∧
    ((update_exif_metadata
        ⟨fun t => if t = 270 then some (ExifVal.bytes "desc") else none,
          fun _ => none, fun _ => none, fun _ => none, fun _ => none⟩
        "dt" 1 2).zeroth 270 =
      (⟨fun t => if t = 270 then some (ExifVal.bytes "desc") else none,
          fun _ => none, fun _ => none, fun _ => none, fun _ => none⟩ : ExifData).zeroth 270 ∧
    (update_exif_metadata
        ⟨fun t => if t = 270 then some (ExifVal.bytes "desc") else none,
          fun _ => none, fun _ => none, fun _ => none, fun _ => none⟩
        "dt" 1 2).exifIFD 270 =
      (⟨fun t => if t = 270 then some (ExifVal.bytes "desc") else none,
          fun _ => none, fun _ => none, fun _ => none, fun _ => none⟩ : ExifData).exifIFD 270 ∧
    (update_exif_metadata
        ⟨fun t => if t = 270 then some (ExifVal.bytes "desc") else none,
          fun _ => none, fun _ => none, fun _ => none, fun _ => none⟩
        "dt" 1 2).firstIFD 270 =
      (⟨fun t => if t = 270 then some (ExifVal.bytes "desc") else none,
          fun _ => none, fun _ => none, fun _ => none, fun _ => none⟩ : ExifData).firstIFD 270 ∧
    (update_exif_metadata
        ⟨fun t => if t = 270 then some (ExifVal.bytes "desc") else none,
          fun _ => none, fun _ => none, fun _ => none, fun _ => none⟩
        "dt" 1 2).interop 270 =
      (⟨fun t => if t = 270 then some (ExifVal.bytes "desc") else none,
          fun _ => none, fun _ => none, fun _ => none, fun _ => none⟩ : ExifData).interop 270 ∧
    loadExif none = emptyExif ∧
    loadExif (some ⟨fun t => if t = 270 then some (ExifVal.bytes "desc") else none,
        fun _ => none, fun _ => none, fun _ => none, fun _ => none⟩) =
      ⟨fun t => if t = 270 then some (ExifVal.bytes "desc") else none,
        fun _ => none, fun _ => none, fun _ => none, fun _ => none⟩) :=
  ⟨⟨by decide, by decide, by decide⟩,
    exif_merge_preserves_other_fields
      ⟨fun t => if t = 270 then some (ExifVal.bytes "desc") else none,
        fun _ => none, fun _ => none, fun _ => none, fun _ => none⟩
      "dt" 1 2 270 (by decide) (by decide) (by decide)⟩

/-- C6: when the coordinate cell fails to parse into two floats, the
parse yields the absent pair (the empty string is such a case), the EXIF
geotag/timestamp update is skipped (the block is returned unchanged), and
the raw coordinate string is still the second watermark line. -/
theorem malformed_coordinates_skip_geotag (ll : String)
    (h : parse_lat_lon ll = none) (e : ExifData) (dt ts : String)
    (cells : List (Option String)) :
    parse_lat_lon "" = none ∧
    geotagged e dt ll = e ∧
    (watermark_lines ts ll cells)[1]? = some ll := by
  refine ⟨rfl, ?_, by simp [watermark_lines]⟩
  rw [geotagged, h]

/-- C6 witness: the malformed coordinate string `"abc"` parses to the
absent pair, skips the geotag step, and is still rendered as a line. -/
theorem malformed_coordinates_skip_geotag_witness :
    parse_lat_lon "abc" = none ∧
    (parse_lat_lon "" = none ∧
    geotagged emptyExif "dt" "abc" = emptyExif ∧
    (watermark_lines "ts" "abc" [])[1]? = some "abc") :=
  ⟨by decide, malformed_coordinates_skip_geotag "abc" (by decide) emptyExif "dt" "ts" []⟩

/-! ### Per-row processing (`add_watermark`, lines 78–100)

Image decoding, font loading and file saving are external library calls;
they enter the model as the `Except`-valued outcomes the environment
produces for this row.  The console output of the row is the value the
model returns. -/

/-- `OUTPUT_DIR = "output_static"`. -/
def OUTPUT_DIR : String := "output_static"

/-- `INPUT_DIR = "input"`. -/
def INPUT_DIR : String := "input"

/-- An in-memory image: its size, optional embedded EXIF block, and the
text lines burned into its pixels so far. -/
structure Image where
  width : ℤ
  height : ℤ
  exif : Option ExifData
  drawn : List String

/-- `draw_watermark(img, lines, font)` (lines 43–54): the pixel effect is
modelled as appending the rendered lines to the image. -/
def draw_watermark (img : Image) (lines : List String) : Image :=
  { img with drawn := img.drawn ++ lines }

/-- The fallible external operations one row may perform: `Image.open`,
`ImageFont.truetype`, and `img.save` per output path.  An `Except.error`
is a raised exception. -/
structure RowEnv where
  openImage : Except String Image
  loadFont : Except String Unit
  save : String → Except String Unit

/-- Outcome of the save loop of `add_watermark` (lines 92–97): the paths
written, the success lines printed, and the first exception if one was
raised (saves already made stay made). -/
structure SaveOutcome where
  written : List String
  msgs : List String
  err : Option String

/-- The `for folder in output_folders` save loop. -/
def saveAll (env : RowEnv) (new_filename : String) : List String → SaveOutcome
  | [] => ⟨[], [], none⟩
  | folder :: rest =>
    match env.save (OUTPUT_DIR ++ "/" ++ folder ++ "/" ++ new_filename) with
    | Except.error e => ⟨[], [], some e⟩
    | Except.ok _ =>
      let o := saveAll env new_filename rest
      ⟨(OUTPUT_DIR ++ "/" ++ folder ++ "/" ++ new_filename) :: o.written,
        ("✅ Saved to: " ++ (OUTPUT_DIR ++ "/" ++ folder ++ "/" ++ new_filename)) :: o.msgs,
        o.err⟩

/-- The line printed by the `except` handler of `add_watermark`. -/
def errLine (input_path e : String) : String :=
  "❌ Error processing " ++ input_path ++ ": " ++ e

/-- Embedding of `add_watermark(...)` (lines 78–100): open the image,
merge metadata, draw the watermark, save to every output folder; any
exception from an external operation is caught and turned into an error
line naming the input path.  Returns the written paths and the console
lines. -/
def add_watermark (env : RowEnv) (input_path new_filename : String)
    (output_folders wm_lines : List String)
    (exif_datetime longlat_str : String) : List String × List String :=
  match env.openImage with
  | Except.error e => ([], [errLine input_path e])
  | Except.ok img =>
    let _exif_data := geotagged (loadExif img.exif) exif_datetime longlat_str
    match env.loadFont with
    | Except.error e => ([], [errLine input_path e])
    | Except.ok _ =>
      let _img2 := draw_watermark img wm_lines
      let o := saveAll env new_filename output_folders
      match o.err with
      | some e => (o.written, o.msgs ++ [errLine input_path e])
      | none => (o.written, o.msgs)

/-- The per-row arguments the main loop hands to `add_watermark`. -/
structure RowSpec where
  env : RowEnv
  input_path : String
  new_filename : String
  output_folders : List String
  wm_lines : List String
  exif_datetime : String
  longlat : String

/-- Run one row. -/
def runRow (r : RowSpec) : List String × List String :=
  add_watermark r.env r.input_path r.new_filename r.output_folders
    r.wm_lines r.exif_datetime r.longlat

/-- Run every row: the loop body never propagates an exception, so the
batch is the map of `runRow` over the rows. -/
def processBatch (rows : List RowSpec) : List (List String × List String) :=
  rows.map runRow

/-- The first exception the external operations of a row raise, if any. -/
def rowErr (r : RowSpec) : Option String :=
  match r.env.openImage with
  | Except.error e => some e
  | Except.ok _ =>
    match r.env.loadFont with
    | Except.error e => some e
    | Except.ok _ => (saveAll r.env r.new_filename r.output_folders).err

lemma errLine_mem_runRow (r : RowSpec) (e : String) (he : rowErr r = some e) :
    errLine r.input_path e ∈ (runRow r).2 := by
  rcases hOpen : r.env.openImage with eo | img
  · rw [rowErr, hOpen] at he
    simp only [runRow, add_watermark, hOpen]
    simp only [Option.some.injEq] at he
    simp [he]
  · rcases hFont : r.env.loadFont with ef | u
    · rw [rowErr, hOpen, hFont] at he
      simp only [runRow, add_watermark, hOpen, hFont]
      simp only [Option.some.injEq] at he
      simp [he]
    · rw [rowErr, hOpen, hFont] at he
      simp at he
      simp only [runRow, add_watermark, hOpen, hFont, he]
      simp

/-- C7: a row whose external operations raise an exception is caught
inside the per-row processing: the batch still has one outcome per row,
and the failing row's console output contains the error line naming that
row's input path; no row aborts the batch. -/
theorem row_failure_caught_and_logged (rows : List RowSpec) (i : ℕ)
    (r : RowSpec) (e : String)
    (hi : rows[i]? = some r) (he : rowErr r = some e) :
    (processBatch rows).length = rows.length ∧
    ∃ out, (processBatch rows)[i]? = some out ∧
      errLine r.input_path e ∈ out.2 := by
  refine ⟨List.length_map rows runRow, ⟨runRow r, ?_, errLine_mem_runRow r e he⟩⟩
  rw [processBatch, List.getElem?_map, hi]
  rfl

/-- C7 witness: a batch of one row whose image open raises `"boom"` still
produces one outcome, containing the logged error line with the input
path. -/
theorem row_failure_caught_and_logged_witness :
    ([(⟨⟨Except.error "boom", Except.ok (), fun _ => Except.ok ()⟩,
        "input/a.jpg", "x.jpg", [], [], "", ""⟩ : RowSpec)][0]? =
      some (⟨⟨Except.error "boom", Except.ok (), fun _ => Except.ok ()⟩,
        "input/a.jpg", "x.jpg", [], [], "", ""⟩ : RowSpec)) ∧
    rowErr (⟨⟨Except.error "boom", Except.ok (), fun _ => Except.ok ()⟩,
        "input/a.jpg", "x.jpg", [], [], "", ""⟩ : RowSpec) = some "boom" ∧
    ((processBatch [⟨⟨Except.error "boom", Except.ok (), fun _ => Except.ok ()⟩,
        "input/a.jpg", "x.jpg", [], [], "", ""⟩]).length =
      ([(⟨⟨Except.error "boom", Except.ok (), fun _ => Except.ok ()⟩,
        "input/a.jpg", "x.jpg", [], [], "", ""⟩ : RowSpec)] : List RowSpec).length ∧
    ∃ out, (processBatch [⟨⟨Except.error "boom", Except.ok (), fun _ => Except.ok ()⟩,
        "input/a.jpg", "x.jpg", [], [], "", ""⟩])[0]? = some out ∧
      errLine "input/a.jpg" "boom" ∈ out.2) :=
  ⟨rfl, rfl,
    row_failure_caught_and_logged
      [⟨⟨Except.error "boom", Except.ok (), fun _ => Except.ok ()⟩,
        "input/a.jpg", "x.jpg", [], [], "", ""⟩] 0
      ⟨⟨Except.error "boom", Except.ok (), fun _ => Except.ok ()⟩,
        "input/a.jpg", "x.jpg", [], [], "", ""⟩ "boom" rfl rfl⟩

/-! ### Main processing logic (`process_images_csv`, lines 106–173) -/

/-- `FOLDER_COLUMN_RANGE = (2, 3)`. -/
def FOLDER_COLUMN_RANGE : ℕ × ℕ := (2, 3)

/-- `df.columns[2:3+1]` filtered by `pd.notna(row[col]) and
str(row[col]).strip()`: the stripped non-empty folder cells. -/
def output_folders_of (cells : List (Option String)) : List String :=
  ((cells.drop FOLDER_COLUMN_RANGE.1).take
      (FOLDER_COLUMN_RANGE.2 + 1 - FOLDER_COLUMN_RANGE.1)).filterMap
    (fun c =>
      match c with
      | some s => if (strip s).data.isEmpty then none else some (strip s)
      | none => none)

/-- Zero-padded two-digit rendering of a time field. -/
def two (n : ℕ) : String := if n < 10 then "0" ++ toString n else toString n

/-- `strftime("%Y:%m:%d %H:%M:%S")`.  The calendar date is rendered as an
absolute day number; the embedding does not model the Gregorian spelling
of the date, only that the string determines day, hour, minute and
second. -/
def exifFmt (c : Clock) : String :=
  "d" ++ toString (dayOf c.secs) ++ " " ++ two (hourOf c.secs) ++ ":" ++
    two (minuteOf c.secs) ++ ":" ++ two (secondOf c.secs)

/-- `strftime("%d %b %Y %H:%M:%S")`, rendered like `exifFmt` but in the
display spelling. -/
def displayFmt (c : Clock) : String :=
  "D" ++ toString (dayOf c.secs) ++ " " ++ two (hourOf c.secs) ++ ":" ++
    two (minuteOf c.secs) ++ ":" ++ two (secondOf c.secs)

/-- The `for idx, image_name in enumerate(image_files)` loop: advance the
clock once, build the watermark lines and folder list from the idx-th
surviving row, and run `add_watermark`.  Returns the per-row outcomes and
the final clock. -/
def procLoop (df : List Row) (draws : ℕ → Draw) (envs : ℕ → RowEnv) :
    ℕ → Clock → List String → List (List String × List String) × Clock
  | _, c, [] => ([], c)
  | i, c, image_name :: rest =>
    let row := df.getD i ⟨none, none, []⟩
    let new_filename := strip (row.fileName.getD "") ++ ".jpg"
    let longlat := strip (row.longlat.getD "")
    let c2 := stepClock c (draws i)
    let wm := watermark_lines (displayFmt c2) longlat row.cells
    let out := add_watermark (envs i) (INPUT_DIR ++ "/" ++ image_name)
      new_filename (output_folders_of row.cells) wm (exifFmt c2) longlat
    let next := procLoop df draws envs (i + 1) c2 rest
    (out :: next.1, next.2)

/-- Embedding of `process_images_csv()`: load and filter the rows, list
and sort the image files, abort with a console message if there are more
images than surviving rows, otherwise run the loop from `base_datetime`.
Returns the pre-check console lines, the per-row outcomes, and the final
clock. -/
def process_images_csv (files : List String) (rows : List Row)
    (draws : ℕ → Draw) (envs : ℕ → RowEnv) :
    List String × List (List String × List String) × Clock :=
  if (surviving rows).length < (imageFiles files).length then
    (["❌ Error: " ++ toString (imageFiles files).length ++ " images but only " ++
        toString (surviving rows).length ++ " rows in CSV."], [], base_datetime)
  else
    ([], procLoop (surviving rows) draws envs 0 base_datetime (imageFiles files))

/-- C9: when there are more recognized image files than surviving table
rows, the run reports the mismatch and returns before the loop: no row
outcome is produced (so nothing is written) and the clock is still the
initial instant. -/
theorem more_images_than_rows_aborts (files : List String) (rows : List Row)
    (draws : ℕ → Draw) (envs : ℕ → RowEnv)
    (h : (surviving rows).length < (imageFiles files).length) :
    process_images_csv files rows draws envs =
      (["❌ Error: " ++ toString (imageFiles files).length ++ " images but only " ++
          toString (surviving rows).length ++ " rows in CSV."], [], base_datetime) := by
  rw [process_images_csv, if_pos h]

/-- C9 witness: one image file and an empty table abort the run before any
processing. -/
theorem more_images_than_rows_aborts_witness :
    (surviving []).length < (imageFiles ["a.jpg"]).length ∧
    process_images_csv ["a.jpg"] [] (fun _ => ⟨8, 0, 0, 0⟩)
        (fun _ => ⟨Except.ok ⟨1, 1, none, []⟩, Except.ok (), fun _ => Except.ok ()⟩) =
      (["❌ Error: " ++ toString (imageFiles ["a.jpg"]).length ++ " images but only " ++
          toString (surviving ([] : List Row)).length ++ " rows in CSV."], [], base_datetime) :=
  ⟨by decide,
    more_images_than_rows_aborts ["a.jpg"] [] (fun _ => ⟨8, 0, 0, 0⟩)
      (fun _ => ⟨Except.ok ⟨1, 1, none, []⟩, Except.ok (), fun _ => Except.ok ()⟩)
      (by decide)⟩
